import Mathlib

/-
  Verification development for multilevel_regression.py: a shallow embedding
  of the model-building, fit/predict, and cross-validation layer, together
  with theorems settling the specification claims.

  Conventions of the embedding:
  * Machine floats of the source are modelled as rationals (the claims under
    study are structural, not about rounding).
  * Fallible Python code is modelled with Except: the error type covers both
    the Python runtime errors actually raised by the source and the error
    taxonomy named in the documentation (the latter constructors are never
    produced by any embedded operation, which is itself a finding).
  * scipy.stats.t.mean and scipy.stats.t.ppf are external analytic functions;
    they are passed as explicit function parameters so theorems hold for the
    true Student-t statistics.
  * pm.sample is the external posterior sampler; it is passed as an explicit
    function parameter returning the combined multi-chain trace, as the
    documentation specifies for the external sampler collaborator.
-/

namespace MultilevelRegression

/-- Errors: Python runtime errors raised by the embedded code, plus the
error names used by the documentation taxonomy. -/
inductive PyErr
  | keyError (k : String)
  | attributeError (a : String)
  | nameError (n : String)
  | duplicateVarError (n : String)
  | typeError
  | indexError
  | valueError
  | notFittedError
  | notBuiltError
  | shapeMismatchError
  deriving DecidableEq, Repr

/-- Symbolic expression appearing as a distribution parameter or the
location of the likelihood inside a built model graph. Data arrays are
baked into the graph at build time, as pymc3 does with observed data and
constant index arrays. -/
inductive GExpr
  | lit (q : ℚ)
  | rv (name : String)
  | dataMat (m : List (List ℚ))
  | add (a b : GExpr)
  | mul (a b : GExpr)
  | dotE (a b : GExpr)
  | idxCols (a : GExpr) (idx : List ℤ)
  deriving DecidableEq, Repr

/-- Distribution family of a latent variable declaration. -/
inductive GDist
  | normal (mu sigma : GExpr)
  | halfNormal (sigma : GExpr)
  | halfCauchy (beta : GExpr)
  | exponential (lam : GExpr)
  deriving DecidableEq, Repr

/-- One latent-variable declaration of a model graph: registered name,
distribution, and shape (empty shape is a scalar). -/
structure Latent where
  name : String
  dist : GDist
  shape : List ℕ
  deriving DecidableEq, Repr

/-- The single observed likelihood node: a Student-t on the response with
symbolic location, scale and degrees of freedom. -/
structure LikeNode where
  name : String
  mu : GExpr
  sigma : GExpr
  nu : GExpr
  observed : List ℚ
  deriving DecidableEq, Repr

/-- A built model graph: ordered latent declarations plus exactly one
likelihood node. -/
structure ModelGraph where
  latents : List Latent
  likelihood : LikeNode
  deriving DecidableEq, Repr

/-- Number of distinct values, as np.unique(...).shape[0] computes it. -/
def uniqueCount (l : List ℤ) : ℕ := l.dedup.length

/-- PoolLinearModel._build_model (multilevel_regression.py lines 66-82):
scalar Normal(0, 1e5) priors on alpha and beta, HalfNormal(1e5) on sigma,
Exponential(1/30) on nu, and a Student-t likelihood on y with location
alpha + dot(beta, X). Pure: building performs no sampling. -/
def poolBuildModel (X : List (List ℚ)) (y : List ℚ) : ModelGraph :=
  { latents :=
      [⟨"alpha", GDist.normal (GExpr.lit 0) (GExpr.lit 100000), []⟩,
       ⟨"beta", GDist.normal (GExpr.lit 0) (GExpr.lit 100000), []⟩,
       ⟨"sigma", GDist.halfNormal (GExpr.lit 100000), []⟩,
       ⟨"nu", GDist.exponential (GExpr.lit (1 / 30)), []⟩],
    likelihood :=
      ⟨"y", GExpr.add (GExpr.rv "alpha") (GExpr.dotE (GExpr.rv "beta") (GExpr.dataMat X)),
       GExpr.rv "sigma", GExpr.rv "nu", y⟩ }

/-- The model graph built by UnpoolModel._build_model once the group index
has been read: per-group Normal priors of shape (n_features, n_groups)
indexed by the observation-level group index, with n_groups the number of
distinct index values. -/
def unpoolGraph (X : List (List ℚ)) (y : List ℚ) (gidx : List ℤ) : ModelGraph :=
  { latents :=
      [⟨"alpha", GDist.normal (GExpr.lit 0) (GExpr.lit 100000),
        [(X.headD []).length, uniqueCount gidx]⟩,
       ⟨"beta", GDist.normal (GExpr.lit 0) (GExpr.lit 100000),
        [(X.headD []).length, uniqueCount gidx]⟩,
       ⟨"sigma", GDist.halfNormal (GExpr.lit 100000), []⟩,
       ⟨"nu", GDist.exponential (GExpr.lit (1 / 30)), []⟩],
    likelihood :=
      ⟨"y",
       GExpr.add (GExpr.idxCols (GExpr.rv "alpha") gidx)
         (GExpr.dotE (GExpr.dataMat X) (GExpr.idxCols (GExpr.rv "beta") gidx)),
       GExpr.rv "sigma", GExpr.rv "nu", y⟩ }

/-- Trailing dimension of the declared shape of a named latent. -/
def lastDim (g : ModelGraph) (n : String) : Option ℕ :=
  match g.latents.find? (fun l => l.name == n) with
  | some l => l.shape.getLast?
  | none => none

/-- Python array-indexing bounds check for column indexing into an array
whose trailing axis has size G: valid indices are -G <= i < G (negative
indices wrap around, as in numpy and theano). -/
def idxOk (G : ℕ) (idx : List ℤ) : Bool :=
  idx.all fun i => decide (-(G : ℤ) ≤ i) && decide (i < (G : ℤ))

/-- Bounds checking of the symbolic expressions in a graph, as theano's
eager test-value computation performs while the expressions are being
constructed inside the pm.Model context. -/
def checkExpr (g : ModelGraph) : GExpr → Bool
  | .lit _ => true
  | .rv _ => true
  | .dataMat _ => true
  | .add a b => checkExpr g a && checkExpr g b
  | .mul a b => checkExpr g a && checkExpr g b
  | .dotE a b => checkExpr g a && checkExpr g b
  | .idxCols a idx =>
    checkExpr g a &&
      (match a with
       | .rv n =>
         match lastDim g n with
         | some G => idxOk G idx
         | none => false
       | _ => true)

/-- Eager test-value evaluation of a freshly constructed graph, as pymc3
3.x triggers at graph-construction time inside the model context: index
bounds errors surface here, during _build_model, as IndexError. -/
def graphCheck (g : ModelGraph) : Except PyErr Unit :=
  if checkExpr g g.likelihood.mu && checkExpr g g.likelihood.sigma &&
      checkExpr g g.likelihood.nu then
    .ok ()
  else
    .error .indexError

/-- UnpoolModel._build_model (lines 106-132). The group index is read from
the keyword arguments: a missing key raises KeyError. The index values are
baked into the graph without any explicit validation, but constructing
alpha[:, group_idx] at line 124 computes theano test values eagerly, so an
out-of-bounds index raises IndexError here, during building, before
pm.sample is ever invoked. -/
def unpoolBuildModel (X : List (List ℚ)) (y : List ℚ) (group_idx : Option (List ℤ)) :
    Except PyErr ModelGraph :=
  match group_idx with
  | none => .error (.keyError "group_idx")
  | some gidx =>
    match graphCheck (unpoolGraph X y gidx) with
    | .error e => .error e
    | .ok _ => .ok (unpoolGraph X y gidx)

/-- Mutable state of a MultiLevelModel instance, as initialized by
MultiLevelModel.__init__ (lines 21-25). The trace is a list of draws of
type delta (one record per retained draw of the combined trace). -/
structure MLMState (δ : Type) where
  trace_ : Option (List δ)
  n_groups_ : Option ℕ
  n_features_ : Option ℕ
  model_ : Option ModelGraph
  deriving DecidableEq, Repr

/-- Freshly constructed model instance: every attribute is None. -/
def initMLM {δ : Type} : MLMState δ := ⟨none, none, none, none⟩

/-- MultiLevelModel.fit (lines 30-59): build the model graph, sample, and
store the combined trace with its first burn draws dropped. The builder
and the external sampler are explicit fallible steps; an error in either
propagates and no trace is stored. -/
def MLM_fit {δ : Type} (builder : Except PyErr ModelGraph)
    (sampler : ModelGraph → Except PyErr (List δ)) (burn : ℕ)
    (m : MLMState δ) : Except PyErr (MLMState δ) :=
  match builder with
  | .error e => .error e
  | .ok g =>
    match sampler g with
    | .error e => .error e
    | .ok tr => .ok { m with model_ := some g, trace_ := some (tr.drop burn) }

/-- pm.sample as used by fit: the external sampler draws the combined
trace from the already built (and already test-value-checked) graph. -/
def pmSample {δ : Type} (draws : ModelGraph → List δ) (g : ModelGraph) :
    Except PyErr (List δ) :=
  .ok (draws g)

/-- fit of a PoolLinearModel instance. -/
def poolFit {δ : Type} (draws : ModelGraph → List δ) (X : List (List ℚ)) (y : List ℚ)
    (burn : ℕ) (m : MLMState δ) : Except PyErr (MLMState δ) :=
  MLM_fit (.ok (poolBuildModel X y)) (pmSample draws) burn m

/-- fit of an UnpoolModel instance. -/
def unpoolFit {δ : Type} (draws : ModelGraph → List δ) (X : List (List ℚ)) (y : List ℚ)
    (group_idx : Option (List ℤ)) (burn : ℕ) (m : MLMState δ) :
    Except PyErr (MLMState δ) :=
  MLM_fit (unpoolBuildModel X y group_idx) (pmSample draws) burn m

/-- One retained draw of a pooled-model trace: the values of the four
scalar latents. The combined MultiTrace guarantees all latents share the
same draw count, so a draw is one record. -/
structure PoolDraw where
  alpha : ℚ
  beta : ℚ
  sigma : ℚ
  nu : ℚ
  deriving DecidableEq, Repr

/-- Pointwise ternary zip, the elementwise combination of three equally
long broadcast numpy arrays. -/
def zipWith3 {α β γ ε : Type} (f : α → β → γ → ε) : List α → List β → List γ → List ε
  | a :: as, b :: bs, c :: cs => f a b c :: zipWith3 f as bs cs
  | _, _, _ => []

/-- numpy mean of a flat array (sum divided by length; the empty array
gives 0 here where numpy would warn and produce nan). -/
def listAvg (l : List ℚ) : ℚ := l.sum / l.length

/-- The location array mu = trace.alpha + trace.beta * X[:, None] of
PoolLinearModel.predict (line 97), for single-feature rows as the model
uses: shape (n_obs, 1, n_draws), built by broadcasting the per-draw alpha
and beta arrays against each row of X. -/
def predMu (alphaArr betaArr : List ℚ) (X : List ℚ) : List (List (List ℚ)) :=
  X.map fun x => [List.zipWith (fun a b => a + b * x) alphaArr betaArr]

/-- Elementwise Student-t statistic over the (n_obs, 1, n_draws) location
array, broadcasting the per-draw df and scale arrays along the draw axis:
stat is applied as stat df loc scale. -/
def distElt (stat : ℚ → ℚ → ℚ → ℚ) (nuArr sigmaArr : List ℚ)
    (mu : List (List (List ℚ))) : List (List (List ℚ)) :=
  mu.map fun plane => plane.map fun row => zipWith3 stat nuArr row sigmaArr

/-- numpy mean over axis 2 of an (n_obs, 1, n_draws) array. -/
def meanAxis2 (a : List (List (List ℚ))) : List (List ℚ) :=
  a.map fun plane => plane.map listAvg

/-- Estimates returned by predict: either the (n_obs, 1) posterior-mean
array, or one (n_obs, 1) array per requested quantile. -/
inductive PredOut
  | point (est : List (List ℚ))
  | quants (ests : List (List (List ℚ)))
  deriving DecidableEq, Repr

/-- PoolLinearModel.predict (lines 84-102). tMean and tPpf are the analytic
scipy Student-t mean and quantile functions (arguments: df, loc, scale, and
for tPpf the probability). Subscripting the stored trace when it is still
None raises TypeError, exactly as trace_[...] does on a fresh instance. -/
def poolPredict (tMean : ℚ → ℚ → ℚ → ℚ) (tPpf : ℚ → ℚ → ℚ → ℚ → ℚ)
    (m : MLMState PoolDraw) (X : List ℚ) (q : Option (List ℚ)) :
    Except PyErr PredOut :=
  match m.trace_ with
  | none => .error .typeError
  | some tr =>
    let alphaArr := tr.map PoolDraw.alpha
    let betaArr := tr.map PoolDraw.beta
    let sigmaArr := tr.map PoolDraw.sigma
    let nuArr := tr.map PoolDraw.nu
    let mu := predMu alphaArr betaArr X
    match q with
    | none => .ok (.point (meanAxis2 (distElt tMean nuArr sigmaArr mu)))
    | some qs =>
      .ok (.quants (qs.map fun q_ =>
        meanAxis2 (distElt (fun n l s => tPpf n l s q_) nuArr sigmaArr mu)))

/-
  Statement-level embedding of PartialPoolModel._build_model (lines
  136-199). That method body mixes two parameterizations and references
  names undefined in its scope, so it is embedded at the granularity of
  Python statements: name binding, attribute reads, keyword lookups and
  pymc3 variable registration, with the interpreter reproducing the
  evaluation order of the Python code.
-/

/-- A pymc3 random-variable registration statement: the optional local
name it is assigned to, the registered variable name, the distribution,
and the data identifiers referenced in its arguments. -/
structure RegStmt where
  bindName : Option String
  rvName : String
  distName : String
  argRefs : List String
  deriving DecidableEq, Repr

/-- One Python statement of a builder body. -/
inductive PStmt
  | kwargLookup (bindName key : String)
  | attrRead (bindName attrName : String) (elseRefs : List String)
  | assign (bindName : String) (refs : List String)
  | register (r : RegStmt)
  | deterministic (bindName rvName : String) (refs : List String)
  deriving DecidableEq, Repr

/-- Scope of the interpreter: bound local names, keys present in the
keyword-argument dictionary, attributes existing on self, and variable
names already registered in the ambient model. -/
structure PyScope where
  locals : List String
  kwargKeys : List String
  attrs : List String
  rvNames : List String
  deriving DecidableEq, Repr

/-- First referenced name not in scope, as a NameError, if any. -/
def checkRefs (locals : List String) : List String → Except PyErr Unit
  | [] => .ok ()
  | r :: rs => if r ∈ locals then checkRefs locals rs else .error (.nameError r)

/-- Register a variable name into the model, failing as pymc3 does when
the name already exists. -/
def registerRV (s : PyScope) (bindName : Option String) (rvName : String)
    (argRefs : List String) : Except PyErr PyScope :=
  match checkRefs s.locals argRefs with
  | .error e => .error e
  | .ok _ =>
    if rvName ∈ s.rvNames then .error (.duplicateVarError rvName)
    else
      .ok { s with rvNames := rvName :: s.rvNames,
                   locals := match bindName with
                             | some b => b :: s.locals
                             | none => s.locals }

/-- Execute one statement in the current scope. -/
def stepStmt (s : PyScope) : PStmt → Except PyErr PyScope
  | .kwargLookup b k =>
    if k ∈ s.kwargKeys then .ok { s with locals := b :: s.locals }
    else .error (.keyError k)
  | .attrRead b a elseRefs =>
    if a ∈ s.attrs then
      match checkRefs s.locals elseRefs with
      | .error e => .error e
      | .ok _ => .ok { s with locals := b :: s.locals }
    else .error (.attributeError a)
  | .assign b refs =>
    match checkRefs s.locals refs with
    | .error e => .error e
    | .ok _ => .ok { s with locals := b :: s.locals }
  | .register r => registerRV s r.bindName r.rvName r.argRefs
  | .deterministic b n refs => registerRV s (some b) n refs

/-- Execute a statement list, stopping at the first raised error. -/
def runStmts : List PStmt → PyScope → Except PyErr PyScope
  | [], s => .ok s
  | st :: rest, s =>
    match stepStmt s st with
    | .error e => .error e
    | .ok s2 => runStmts rest s2

/-- The body of PartialPoolModel._build_model, statement by statement
(source lines 137-197, in source order). -/
def partialPoolBody : List PStmt :=
  [PStmt.kwargLookup "group_idx" "group_idx",
   PStmt.attrRead "n_groups" "n_groups" ["group_idx"],
   PStmt.assign "n_features" ["X"],
   PStmt.assign "model" [],
   PStmt.register ⟨some "alpha_mu", "alpha_mu", "Normal", []⟩,
   PStmt.register ⟨some "alpha_sigma", "sigma", "HalfNormal", []⟩,
   PStmt.register ⟨some "alpha", "alpha", "Normal",
     ["alpha_mu", "alpha_sigma", "n_features", "n_groups"]⟩,
   PStmt.register ⟨some "beta_mu", "beta_mu", "Normal", []⟩,
   PStmt.register ⟨some "beta_sigma", "sigma", "HalfNormal", []⟩,
   PStmt.register ⟨some "beta", "beta", "Normal",
     ["beta_mu", "beta_sigma", "n_features", "n_groups"]⟩,
   PStmt.register ⟨some "sigma", "sigma", "HalfNormal", []⟩,
   PStmt.assign "mu" ["alpha", "group_idx", "X", "beta"],
   PStmt.register ⟨some "nu", "nu", "Exponential", []⟩,
   PStmt.register ⟨none, "y", "StudentT", ["mu", "sigma", "nu", "y"]⟩,
   PStmt.assign "n_groups" ["county_cat"],
   PStmt.register ⟨some "alpha_mu", "alpha_mu", "Normal", []⟩,
   PStmt.register ⟨some "alpha_sigma", "alpha_sigma", "HalfCauchy", []⟩,
   PStmt.register ⟨some "alpha_t", "alpha_t", "Normal", ["n_groups"]⟩,
   PStmt.deterministic "alpha" "alpha" ["alpha_mu", "alpha_sigma", "alpha_t"],
   PStmt.register ⟨some "beta_mu", "beta_mu", "Normal", []⟩,
   PStmt.register ⟨some "beta_sigma", "beta_sigma", "HalfCauchy", []⟩,
   PStmt.register ⟨some "beta_t", "beta_t", "Normal", ["n_groups"]⟩,
   PStmt.deterministic "beta" "beta" ["beta_mu", "beta_sigma", "beta_t"],
   PStmt.register ⟨some "sigma", "sigma", "HalfNormal", ["radon_activity_bc"]⟩,
   PStmt.register ⟨some "nu", "nu", "Exponential", []⟩,
   PStmt.assign "mu" ["alpha", "county_cat_idx", "beta", "floor"],
   PStmt.register ⟨some "y", "y", "StudentT", ["mu", "sigma", "nu", "radon_activity_bc"]⟩]

/-- Attributes set by MultiLevelModel.__init__ (lines 21-25). -/
def ctorAttrs : List String := ["trace_", "n_groups_", "n_features_", "model_"]

/-- Scope at entry of a _build_model body: parameters X, y and the kwargs
dictionary are bound; the instance has the constructor attributes; no
variable is registered yet. -/
def initScope (kwargKeys : List String) : PyScope :=
  ⟨["X", "y", "kwargs"], kwargKeys, ctorAttrs, []⟩

/-- The model-variable name a statement registers, if any. -/
def stmtRegName : PStmt → Option String
  | .register r => some r.rvName
  | .deterministic _ n _ => some n
  | _ => none

/-- How many statements of a body register the given variable name. -/
def regCount (body : List PStmt) (n : String) : ℕ :=
  (body.filterMap stmtRegName).count n

/-- Data identifiers referenced by a statement. -/
def stmtRefs : PStmt → List String
  | .kwargLookup _ _ => []
  | .attrRead _ _ rs => rs
  | .assign _ rs => rs
  | .register r => r.argRefs
  | .deterministic _ _ rs => rs

/-- Local name bound by a statement, if any. -/
def stmtBind : PStmt → Option String
  | .kwargLookup b _ => some b
  | .attrRead b _ _ => some b
  | .assign b _ => some b
  | .register r => r.bindName
  | .deterministic b _ _ => some b

/-- All data identifiers referenced anywhere in a body. -/
def bodyRefs (body : List PStmt) : List String := (body.map stmtRefs).flatten

/-- All local names a body can ever bind, together with the parameters. -/
def bodyBinds (body : List PStmt) : List String :=
  "X" :: "y" :: "kwargs" :: body.filterMap stmtBind

/-
  Cross-validator cv (lines 222-233), including its two slips: the score
  array is np.empty_like(n_splits), a 0-dimensional array, and the model
  function is called as func() with no fold data at all.
-/

/-- A numpy array that is either 0-dimensional (as np.empty_like produces
when given a Python int) or a flat vector. -/
inductive NpArr
  | scalar0d (v : ℚ)
  | vec (l : List ℚ)
  deriving DecidableEq, Repr

/-- Integer-indexed assignment a[i] = v: indexing a 0-d array raises
IndexError (too many indices), as does an out-of-range index. -/
def npSetItem (a : NpArr) (i : ℕ) (v : ℚ) : Except PyErr NpArr :=
  match a with
  | .scalar0d _ => .error .indexError
  | .vec l => if i < l.length then .ok (.vec (l.set i v)) else .error .indexError

/-- Start of the contiguous KFold test block for fold i of n samples in k
folds: the first n mod k folds are one longer. -/
def foldStart (n k i : ℕ) : ℕ := i * (n / k) + min i (n % k)

/-- Size of the KFold test block for fold i. -/
def foldSize (n k i : ℕ) : ℕ := n / k + (if i < n % k then 1 else 0)

/-- sklearn KFold(n_splits).split on n samples: the list of
(train indices, test indices) pairs, after the validity checks sklearn
performs before yielding any fold. -/
def kfold (n n_splits : ℕ) : Except PyErr (List (List ℕ × List ℕ)) :=
  if n_splits < 2 then .error .valueError
  else if n < n_splits then .error .valueError
  else
    .ok ((List.range n_splits).map fun i =>
      let te := List.range' (foldStart n n_splits i) (foldSize n n_splits i)
      ((List.range n).filter (fun j => decide (j ∉ te)), te))

/-- The per-fold loop of cv: gathers the held-out response, calls func with
no arguments, checks prediction length as mean_squared_error does, and
stores the score into the score array. -/
def cvLoop (rmse : List ℚ → List ℚ → ℚ) (func : Unit → List ℚ) (y : List ℚ) :
    List (ℕ × (List ℕ × List ℕ)) → NpArr → Except PyErr NpArr
  | [], scores => .ok scores
  | (i, (_tr, te)) :: rest, scores =>
    let y_test := te.map fun j => y.getD j 0
    let y_pred := func ()
    if y_test.length = y_pred.length then
      match npSetItem scores i (rmse y_test y_pred) with
      | .error e => .error e
      | .ok s2 => cvLoop rmse func y rest s2
    else .error .valueError

/-- cv (lines 222-233). rmse is the external sqrt-of-mean-squared-error
composite; func is the model function exactly as cv calls it, with no
arguments. X is used only through its length, as folds.split(X) uses it. -/
def cv (rmse : List ℚ → List ℚ → ℚ) (func : Unit → List ℚ) (X y : List ℚ)
    (n_splits : ℕ) : Except PyErr NpArr :=
  match kfold X.length n_splits with
  | .error e => .error e
  | .ok folds => cvLoop rmse func y folds.enum (NpArr.scalar0d 0)

/-- The pooled model graph as the specification describes it, written from
the spec words of section 4.2: wide-variance zero-mean Normal priors on a
single global intercept and a single global slope, a half-Normal prior on
the residual scale, an Exponential prior with mean 30 (hence rate the
inverse of 30) on the Student-t degrees of freedom, and one Student-t
likelihood on the response with location intercept + slope dot feature,
scale and df referring to the latents above. -/
def specPooledGraph (X : List (List ℚ)) (y : List ℚ) : ModelGraph :=
  { latents :=
      [⟨"alpha", GDist.normal (GExpr.lit 0) (GExpr.lit 100000), []⟩,
       ⟨"beta", GDist.normal (GExpr.lit 0) (GExpr.lit 100000), []⟩,
       ⟨"sigma", GDist.halfNormal (GExpr.lit 100000), []⟩,
       ⟨"nu", GDist.exponential (GExpr.lit ((30 : ℚ)⁻¹)), []⟩],
    likelihood :=
      ⟨"y", GExpr.add (GExpr.rv "alpha") (GExpr.dotE (GExpr.rv "beta") (GExpr.dataMat X)),
       GExpr.rv "sigma", GExpr.rv "nu", y⟩ }

/-- A concrete stand-in for the analytic Student-t mean, used only to
instantiate witness theorems. -/
def tMean0 : ℚ → ℚ → ℚ → ℚ := fun _ l _ => l

/-- A concrete monotone stand-in for the analytic Student-t quantile
function, used only to instantiate witness theorems. -/
def tPpf0 : ℚ → ℚ → ℚ → ℚ → ℚ := fun _ l _ q => l + q

deriving instance DecidableEq for Except

lemma zipWith3_map_same {α : Type} (f : ℚ → ℚ → ℚ → ℚ) (u w v : α → ℚ) (tr : List α) :
    zipWith3 f (tr.map u) (tr.map w) (tr.map v) = tr.map fun d => f (u d) (w d) (v d) := by
  induction tr with
  | nil => rfl
  | cons d t ih => simpa [zipWith3] using ih

lemma poolPredict_point_eq (tMean : ℚ → ℚ → ℚ → ℚ) (tPpf : ℚ → ℚ → ℚ → ℚ → ℚ)
    (tr : List PoolDraw) (ng nf : Option ℕ) (mg : Option ModelGraph) (X : List ℚ) :
    poolPredict tMean tPpf ⟨some tr, ng, nf, mg⟩ X none =
      .ok (.point (X.map fun x =>
        [listAvg (tr.map fun d => tMean d.nu (d.alpha + d.beta * x) d.sigma)])) := by
  simp [poolPredict, predMu, distElt, meanAxis2, List.map_map, Function.comp,
    zipWith3_map_same]

lemma poolPredict_quants_eq (tMean : ℚ → ℚ → ℚ → ℚ) (tPpf : ℚ → ℚ → ℚ → ℚ → ℚ)
    (tr : List PoolDraw) (ng nf : Option ℕ) (mg : Option ModelGraph) (X qs : List ℚ) :
    poolPredict tMean tPpf ⟨some tr, ng, nf, mg⟩ X (some qs) =
      .ok (.quants (qs.map fun q_ => X.map fun x =>
        [listAvg (tr.map fun d => tPpf d.nu (d.alpha + d.beta * x) d.sigma q_)])) := by
  simp [poolPredict, predMu, distElt, meanAxis2, List.map_map, Function.comp,
    zipWith3_map_same]

/-- C2: for every input (X, y), the pooled builder returns the model graph
the specification describes, node for node: Normal(0, 1e5) priors on one
global intercept and one global slope, HalfNormal(1e5) on the residual
scale, an Exponential prior with mean 30 (rate the inverse of 30) on the
Student-t degrees of freedom, and exactly one Student-t likelihood node on
the response with location intercept + slope dot feature and the latent
scale and df. The builder is a pure function into a graph value, so no
sampling occurs during building. -/
theorem pool_build_matches_spec_graph (X : List (List ℚ)) (y : List ℚ) :
    poolBuildModel X y = specPooledGraph X y := by
  unfold poolBuildModel specPooledGraph
  norm_num

/-- C3: for every fitted pooled model, predict with no quantiles returns,
per prediction row, the average across retained draws of each draw's
Student-t distribution mean; with a quantile list it returns one estimate
array per requested probability, in the requested order, each entry the
average across draws of the analytic quantile function at that
probability. -/
theorem pool_predict_estimates (tMean : ℚ → ℚ → ℚ → ℚ) (tPpf : ℚ → ℚ → ℚ → ℚ → ℚ)
    (tr : List PoolDraw) (ng nf : Option ℕ) (mg : Option ModelGraph) (X : List ℚ) :
    poolPredict tMean tPpf ⟨some tr, ng, nf, mg⟩ X none =
        .ok (.point (X.map fun x =>
          [listAvg (tr.map fun d => tMean d.nu (d.alpha + d.beta * x) d.sigma)])) ∧
      ∀ qs : List ℚ,
        poolPredict tMean tPpf ⟨some tr, ng, nf, mg⟩ X (some qs) =
          .ok (.quants (qs.map fun q_ => X.map fun x =>
            [listAvg (tr.map fun d => tPpf d.nu (d.alpha + d.beta * x) d.sigma q_)])) :=
  ⟨poolPredict_point_eq tMean tPpf tr ng nf mg X,
   fun qs => poolPredict_quants_eq tMean tPpf tr ng nf mg X qs⟩

lemma getD_map_of_lt {α β : Type} (F : α → β) (l : List α) (j : ℕ) (hj : j < l.length)
    (d : α) (d2 : β) : (l.map F).getD j d2 = F (l.getD j d) := by
  induction l generalizing j with
  | nil => simp at hj
  | cons a t ih =>
    cases j with
    | zero => rfl
    | succ n => simpa using ih n (by simpa using hj)

lemma listAvg_map_le {α : Type} (f g : α → ℚ) (tr : List α) (h : ∀ d ∈ tr, f d ≤ g d) :
    listAvg (tr.map f) ≤ listAvg (tr.map g) := by
  unfold listAvg
  simp only [List.length_map]
  rcases Nat.eq_zero_or_pos tr.length with h0 | hpos
  · rw [List.length_eq_zero] at h0
    subst h0
    simp
  · have hc : (0 : ℚ) < tr.length := by exact_mod_cast hpos
    exact (div_le_div_iff_of_pos_right hc).mpr (List.sum_le_sum h)

/-- C7: quantile estimates returned by predict are monotone in the
requested probability, per prediction row, whenever the analytic quantile
function supplied for the Student-t family is monotone in its probability
argument (which the true Student-t quantile function is). -/
theorem pool_quantile_monotone (tMean : ℚ → ℚ → ℚ → ℚ) (tPpf : ℚ → ℚ → ℚ → ℚ → ℚ)
    (hmono : ∀ n l s q q2, q ≤ q2 → tPpf n l s q ≤ tPpf n l s q2)
    (tr : List PoolDraw) (ng nf : Option ℕ) (mg : Option ModelGraph) (X qs : List ℚ)
    (L : List (List (List ℚ)))
    (hL : poolPredict tMean tPpf ⟨some tr, ng, nf, mg⟩ X (some qs) = .ok (.quants L))
    (j1 j2 i : ℕ) (h1 : j1 < qs.length) (h2 : j2 < qs.length) (hi : i < X.length)
    (hq : qs.getD j1 0 < qs.getD j2 0) :
    ((L.getD j1 []).getD i []).getD 0 0 ≤ ((L.getD j2 []).getD i []).getD 0 0 := by
  have hclosed := poolPredict_quants_eq tMean tPpf tr ng nf mg X qs
  rw [hL] at hclosed
  have hLval : L = qs.map fun q_ => X.map fun x =>
      [listAvg (tr.map fun d => tPpf d.nu (d.alpha + d.beta * x) d.sigma q_)] := by
    have := hclosed
    injection this with h3
    injection h3
  subst hLval
  rw [getD_map_of_lt _ qs j1 h1 0, getD_map_of_lt _ qs j2 h2 0,
    getD_map_of_lt _ X i hi 0, getD_map_of_lt _ X i hi 0]
  simp only [List.getD_cons_zero]
  exact listAvg_map_le _ _ tr fun d _ =>
    hmono d.nu (d.alpha + d.beta * X.getD i 0) d.sigma _ _ (le_of_lt hq)

/-- Witness for C7 at a one-draw trace, a single prediction row and the
requested probabilities 0 and 1. -/
theorem pool_quantile_monotone_witness :
    ((([[[(7 : ℚ)]], [[(8 : ℚ)]]].getD 0 []).getD 0 []).getD 0 0) ≤
      ((([[[(7 : ℚ)]], [[(8 : ℚ)]]].getD 1 []).getD 0 []).getD 0 0) :=
  pool_quantile_monotone tMean0 tPpf0
    (fun n l s q q2 h => by simpa [tPpf0] using h)
    [⟨1, 2, 1, 5⟩] none none none [3] [0, 1] [[[7]], [[8]]]
    (by rw [poolPredict_quants_eq]; norm_num [listAvg, tPpf0])
    0 1 0 (by decide) (by decide) (by decide) (by decide)

/-- C4 (amended): predict on a freshly constructed pooled model raises
TypeError (subscripting the stored None trace), not NotFittedError; after
any successful fit the stored trace is present and predict returns a
result without raising. -/
theorem pool_fit_predict_contract :
    (∀ (tM : ℚ → ℚ → ℚ → ℚ) (tP : ℚ → ℚ → ℚ → ℚ → ℚ) (X : List ℚ) (q : Option (List ℚ)),
        poolPredict tM tP initMLM X q = .error .typeError) ∧
      ∀ (draws : ModelGraph → List PoolDraw) (Xf : List (List ℚ)) (yf : List ℚ)
        (burn : ℕ) (m m2 : MLMState PoolDraw),
        poolFit draws Xf yf burn m = .ok m2 →
        ∀ (tM : ℚ → ℚ → ℚ → ℚ) (tP : ℚ → ℚ → ℚ → ℚ → ℚ) (X : List ℚ) (q : Option (List ℚ)),
          ∃ out, poolPredict tM tP m2 X q = .ok out := by
  constructor
  · intro tM tP X q
    rfl
  · intro draws Xf yf burn m m2 hfit tM tP X q
    have hval : m2 = { m with
                       model_ := some (poolBuildModel Xf yf),
                       trace_ := some ((draws (poolBuildModel Xf yf)).drop burn) } := by
      have : poolFit draws Xf yf burn m =
          .ok { m with
                model_ := some (poolBuildModel Xf yf),
                trace_ := some ((draws (poolBuildModel Xf yf)).drop burn) } := rfl
      rw [this] at hfit
      injection hfit with h3
      exact h3.symm
    subst hval
    cases q with
    | none => exact ⟨_, rfl⟩
    | some qs => exact ⟨_, rfl⟩

/-- Witness for C4: a concrete successful fit followed by a successful
predict call. -/
theorem pool_fit_predict_contract_witness :
    ∃ out,
      poolPredict tMean0 tPpf0
        ⟨some [⟨0, 0, 1, 1⟩], none, none, some (poolBuildModel [[1]] [1])⟩
        [2] none = .ok out :=
  pool_fit_predict_contract.2 (fun _ => [⟨0, 0, 1, 1⟩]) [[1]] [1] 0 initMLM
    ⟨some [⟨0, 0, 1, 1⟩], none, none, some (poolBuildModel [[1]] [1])⟩
    rfl tMean0 tPpf0 [2] none

/-- Counterexample for C4 as stated: on a freshly constructed instance,
predict raises TypeError, not the NotFittedError the claim names. -/
theorem pool_predict_unfitted_counterexample :
    poolPredict tMean0 tPpf0 initMLM [0] none = .error .typeError ∧
      (Except.error PyErr.typeError : Except PyErr PredOut) ≠
        .error .notFittedError := by
  exact ⟨rfl, by decide⟩

/-- C9: every successful fit stores the sampler's combined trace with its
first burn draws dropped, and the stored trace does not depend on any
previously stored one: refitting replaces the old trace outright, covering
both the Unfit to Fitted and the Fitted to Fitted transition. -/
theorem fit_stores_burned_trace {δ : Type} (g : ModelGraph)
    (sampler : ModelGraph → Except PyErr (List δ)) (tr : List δ)
    (h : sampler g = .ok tr) (burn : ℕ) (m : MLMState δ) :
    MLM_fit (.ok g) sampler burn m =
      .ok { m with model_ := some g, trace_ := some (tr.drop burn) } := by
  simp [MLM_fit, h]

/-- Witness for C9: a three-draw trace with burn 1, fitted over a
previously fitted state, stores exactly the last two draws. -/
theorem fit_stores_burned_trace_witness :
    MLM_fit (.ok (poolBuildModel [] [])) (fun _ => .ok [(1 : ℚ), 2, 3]) 1
        ⟨some [(9 : ℚ)], none, none, none⟩ =
      .ok ⟨some [(2 : ℚ), 3], none, none, some (poolBuildModel [] [])⟩ := by
  have := fit_stores_burned_trace (poolBuildModel [] []) (fun _ => .ok [(1 : ℚ), 2, 3])
    [(1 : ℚ), 2, 3] rfl 1 ⟨some [(9 : ℚ)], none, none, none⟩
  simpa using this

lemma graphCheck_unpoolGraph (X : List (List ℚ)) (y : List ℚ) (gidx : List ℤ) :
    graphCheck (unpoolGraph X y gidx) =
      if idxOk (uniqueCount gidx) gidx then .ok () else .error .indexError := by
  show (if ((idxOk (uniqueCount gidx) gidx && idxOk (uniqueCount gidx) gidx) && true)
          && true then (.ok () : Except PyErr Unit) else .error .indexError) = _
  simp [Bool.and_true, Bool.and_self]

/-- C5 (amended): the unpooled model performs no explicit validation, and
a group index at or beyond n_groups (or below minus n_groups) makes the
build step itself fail with IndexError: the eager theano test-value
computation raises while _build_model constructs alpha[:, group_idx], so
fit fails with IndexError before any sampling occurs and without consulting
the sampler, exactly the timing the original claim states but with
IndexError in place of ShapeMismatchError. A negative index within minus
n_groups wraps around silently and fit succeeds; and no input whatsoever,
out-of-range indices and mismatched lengths included, ever raises
ShapeMismatchError. -/
theorem unpool_fit_index_behavior {δ : Type} (draws : ModelGraph → List δ)
    (X : List (List ℚ)) (y : List ℚ) (gidx : List ℤ) (burn : ℕ) (m : MLMState δ) :
    ((∃ g0 ∈ gidx, g0 < -(uniqueCount gidx : ℤ) ∨ (uniqueCount gidx : ℤ) ≤ g0) →
        unpoolBuildModel X y (some gidx) = .error .indexError ∧
          unpoolFit draws X y (some gidx) burn m = .error .indexError) ∧
      ((∀ g0 ∈ gidx, -(uniqueCount gidx : ℤ) ≤ g0 ∧ g0 < (uniqueCount gidx : ℤ)) →
        ∃ m2, unpoolFit draws X y (some gidx) burn m = .ok m2) ∧
      ∀ (go : Option (List ℤ)) (burn2 : ℕ) (m3 : MLMState δ),
        unpoolFit draws X y go burn2 m3 ≠ .error .shapeMismatchError := by
  refine ⟨?_, ?_, ?_⟩
  · rintro ⟨g0, hmem, hout⟩
    have hfalse : idxOk (uniqueCount gidx) gidx = false := by
      rw [← Bool.not_eq_true, idxOk, List.all_eq_true]
      push_neg
      refine ⟨g0, hmem, ?_⟩
      rcases hout with h | h <;> simp [h]
    constructor
    · simp [unpoolBuildModel, graphCheck_unpoolGraph, hfalse]
    · simp [unpoolFit, unpoolBuildModel, MLM_fit, graphCheck_unpoolGraph, hfalse]
  · intro hin
    have htrue : idxOk (uniqueCount gidx) gidx = true := by
      rw [idxOk, List.all_eq_true]
      intro g0 hmem
      rcases hin g0 hmem with ⟨hl, hr⟩
      simp [hl, hr]
    refine ⟨{ m with
              model_ := some (unpoolGraph X y gidx),
              trace_ := some ((draws (unpoolGraph X y gidx)).drop burn) }, ?_⟩
    simp [unpoolFit, unpoolBuildModel, MLM_fit, pmSample, graphCheck_unpoolGraph, htrue]
  · intro go burn2 m3
    cases go with
    | none => simp [unpoolFit, unpoolBuildModel, MLM_fit]
    | some gl =>
      rcases Bool.eq_false_or_eq_true (idxOk (uniqueCount gl) gl) with hb | hb <;>
        simp [unpoolFit, unpoolBuildModel, MLM_fit, pmSample, graphCheck_unpoolGraph, hb]

/-- Witness for C5: index 5 with two distinct groups errors with
IndexError already at the build step and hence in fit; index -1 wraps
around and the fit succeeds. -/
theorem unpool_fit_index_behavior_witness :
    (unpoolBuildModel [[1]] [1] (some [0, 5]) = .error .indexError ∧
        unpoolFit (δ := PoolDraw) (fun _ => []) [[1]] [1] (some [0, 5]) 0 initMLM =
          .error .indexError) ∧
      ∃ m2, unpoolFit (δ := PoolDraw) (fun _ => []) [[1]] [1] (some [-1, 0]) 0 initMLM =
        .ok m2 :=
  ⟨(unpool_fit_index_behavior (fun _ => []) [[1]] [1] [0, 5] 0 initMLM).1
      ⟨5, by decide, Or.inr (by decide)⟩,
   (unpool_fit_index_behavior (fun _ => []) [[1]] [1] [-1, 0] 0 initMLM).2.1 (by decide)⟩

/-- Counterexample for C5 as stated: a group index array with an entry
outside the valid range makes fit fail with IndexError, which is not the
ShapeMismatchError the claim names. -/
theorem unpool_fit_oob_counterexample :
    unpoolFit (δ := PoolDraw) (fun _ => []) [[1], [2]] [1, 2, 3] (some [0, 2, 7]) 1
        initMLM = .error .indexError ∧
      PyErr.indexError ≠ PyErr.shapeMismatchError := ⟨rfl, by decide⟩

/-- C6 (amended): fit of a grouped variant without the group index raises
KeyError on the missing keyword, not NotBuiltError; for the unpooled model
the error is independent of the sampler, and for the partial-pooled body
the lookup is the first statement executed, so the error precedes any
sampling cost. -/
theorem grouped_fit_missing_group_idx :
    (∀ (δ : Type) (draws : ModelGraph → List δ) (X : List (List ℚ)) (y : List ℚ)
        (burn : ℕ) (m : MLMState δ),
        unpoolFit draws X y none burn m = .error (.keyError "group_idx")) ∧
      ∀ ks : List String, "group_idx" ∉ ks →
        runStmts partialPoolBody (initScope ks) = .error (.keyError "group_idx") := by
  constructor
  · intro δ draws X y burn m
    rfl
  · intro ks h
    simp [partialPoolBody, runStmts, stepStmt, initScope, h]

/-- Witness for C6 at concrete inputs: unpooled fit with no group index,
and the partial-pooled body run with an empty keyword dictionary. -/
theorem grouped_fit_missing_group_idx_witness :
    unpoolFit (δ := PoolDraw) (fun _ => []) [[1]] [1] none 0 initMLM =
        .error (.keyError "group_idx") ∧
      runStmts partialPoolBody (initScope []) = .error (.keyError "group_idx") :=
  ⟨grouped_fit_missing_group_idx.1 PoolDraw (fun _ => []) [[1]] [1] 0 initMLM,
   grouped_fit_missing_group_idx.2 [] (by decide)⟩

/-- Counterexample for C6 as stated: the missing group index raises
KeyError, which is not the NotBuiltError the claim names. -/
theorem grouped_fit_missing_group_idx_counterexample :
    unpoolFit (δ := PoolDraw) (fun _ => []) [[1], [2]] [1, 2] none 3 initMLM =
        .error (.keyError "group_idx") ∧
      PyErr.keyError "group_idx" ≠ PyErr.notBuiltError := ⟨rfl, by decide⟩

/-- C10: the partial-pooled builder body fails on every input and never
returns a model graph. With the group index supplied it raises
AttributeError on self.n_groups, which the constructor never initializes
(it sets n_groups_); moreover the body registers the variable name sigma
more than once in the same model, and it references the identifiers
county_cat, radon_activity_bc, county_cat_idx and floor, none of which is
ever bound in the scope of the body. -/
theorem partial_pool_build_model_defects :
    (∀ ks : List String, "group_idx" ∈ ks →
        runStmts partialPoolBody (initScope ks) = .error (.attributeError "n_groups")) ∧
      ("n_groups" ∉ ctorAttrs ∧ "n_groups_" ∈ ctorAttrs) ∧
      1 < regCount partialPoolBody "sigma" ∧
      ∀ v ∈ ["county_cat", "radon_activity_bc", "county_cat_idx", "floor"],
        v ∈ bodyRefs partialPoolBody ∧ v ∉ bodyBinds partialPoolBody := by
  refine ⟨?_, by decide, by decide, by decide⟩
  intro ks h
  simp [partialPoolBody, runStmts, stepStmt, initScope, ctorAttrs, h]

/-- Witness for C10: the body run with the group index present in the
keyword dictionary raises AttributeError on n_groups. -/
theorem partial_pool_build_model_defects_witness :
    runStmts partialPoolBody (initScope ["group_idx"]) =
      .error (.attributeError "n_groups") :=
  partial_pool_build_model_defects.1 ["group_idx"] (by decide)

/-- C1: evaluating PartialPoolModel._build_model at a concrete input (the
group index supplied along with an unused extra keyword) raises
AttributeError on the uninitialized attribute n_groups before any model
variable is created, so the build never returns the non-centered graph the
specification intends. -/
theorem partial_pool_build_raises_attribute_error :
    runStmts partialPoolBody (initScope ["group_idx", "draws"]) =
      .error (.attributeError "n_groups") := by
  decide

/-- C8: cv on a concrete well-formed input (four observations, two folds,
a prediction function returning the right number of predictions) crashes
with IndexError on the first fold, when it assigns the fold score into the
0-dimensional array created by np.empty_like(n_splits); it never returns a
per-fold score array. -/
theorem cv_first_fold_index_error :
    cv (fun _ _ => 0) (fun _ => [0, 0]) [1, 2, 3, 4] [1, 2, 3, 4] 2 =
      .error .indexError := by
  decide

end MultilevelRegression
